import Mathlib

/-!
Verification of the BiodiversityLandParcel registry core.

Shallow embedding of `src/contracts/BiodiversityLandParcel.sol` and
`src/contracts/HederaTokenService.sol`:

* addresses (Solidity `address`) are natural numbers, `0` standing for the
  null address `address(0)`;
* `uint256` scores and timestamps are natural numbers (the contract only
  ever compares them, never does arithmetic that could wrap);
* the storage mapping `landParcels` is a total function from addresses to
  records, whose default value is the zero-initialized struct, exactly as
  Solidity mappings behave;
* a `require` failure (revert) is an `Except.error` carrying the revert
  message; a reverted call leaves storage untouched, which `step` makes
  explicit;
* the external Hedera Token Service at the fixed precompile address is a
  parameter: for the contract-level wrappers it is a function returning the
  response code, and for the defensive `HederaTokenService` adapter it is a
  function returning `Option Int`, `none` standing for a transport-level
  failure of the low-level `call` (success flag false), `some c` for a
  completed call whose result decodes to `c`.
-/

abbrev Address := Nat

/-- The struct `BiodiversityData` of `BiodiversityLandParcel.sol`. -/
structure BiodiversityData where
  biodiversityScore : Nat
  ecosystemType : String
  verificationTimestamp : Nat
  verifier : Address
  isVerified : Bool
deriving DecidableEq, Repr

/-- The zero-initialized struct: what a Solidity mapping returns for a key
that was never written. -/
def BiodiversityData.zero : BiodiversityData :=
  { biodiversityScore := 0, ecosystemType := "", verificationTimestamp := 0,
    verifier := 0, isVerified := false }

/-- The storage mapping `landParcels : mapping(address => BiodiversityData)`. -/
abbrev Store := Address → BiodiversityData

/-- Contract storage right after the constructor: every key maps to the
zero-initialized struct. -/
def initialStore : Store := fun _ => BiodiversityData.zero

/-! The constants of library `HederaResponseCodes`. -/

namespace HederaResponseCodes

def SUCCESS : Int := 22

def INVALID_TRANSACTION : Int := 7

def TOKEN_NOT_ASSOCIATED_TO_ACCOUNT : Int := 173

def INSUFFICIENT_ACCOUNT_BALANCE : Int := 15

def INSUFFICIENT_TOKEN_BALANCE : Int := 174

end HederaResponseCodes

/-- `addBiodiversityData` of `BiodiversityLandParcel.sol` (lines 80-99):
`require(biodiversityScore <= 100, "Biodiversity score must be 0-100")`,
then unconditionally overwrite `landParcels[tokenId]` with a fresh record
(`verificationTimestamp = 0`, `verifier = address(0)`, `isVerified = false`). -/
def addBiodiversityData (s : Store) (tokenId : Address) (biodiversityScore : Nat)
    (ecosystemType : String) : Except String Store :=
  if biodiversityScore ≤ 100 then
    .ok (fun k =>
      if k = tokenId then
        { biodiversityScore := biodiversityScore, ecosystemType := ecosystemType,
          verificationTimestamp := 0, verifier := 0, isVerified := false }
      else s k)
  else
    .error "Biodiversity score must be 0-100"

/-- `verifyBiodiversityData` of `BiodiversityLandParcel.sol` (lines 108-119):
`require(landParcels[tokenId].biodiversityScore > 0, ...)`, then set
`isVerified = true`, `verificationTimestamp = block.timestamp`,
`verifier = msg.sender` on the stored record. `sender` is `msg.sender` and
`timestamp` is `block.timestamp`, both supplied by the platform. -/
def verifyBiodiversityData (s : Store) (tokenId : Address) (sender : Address)
    (timestamp : Nat) : Except String Store :=
  if (s tokenId).biodiversityScore > 0 then
    .ok (fun k =>
      if k = tokenId then
        { s tokenId with
            isVerified := true
            verificationTimestamp := timestamp
            verifier := sender }
      else s k)
  else
    .error "No biodiversity data exists for this token"

/-- `getBiodiversityData` of `BiodiversityLandParcel.sol` (lines 127-129):
a `view` function, returning `landParcels[tokenId]` and leaving storage as
it was (the second component records the storage after the call). -/
def getBiodiversityData (s : Store) (tokenId : Address) : BiodiversityData × Store :=
  (s tokenId, s)

/-- `associateToken` of `BiodiversityLandParcel.sol` (lines 139-149): call the
token service, then `revert("Token association failed")` unless the response
is `HederaResponseCodes.SUCCESS`; otherwise return the response. `service`
stands for the external `tokenService.associateToken` call. -/
def associateToken (service : Address → Address → Int) (accountId : Address)
    (tokenId : Address) : Except String Int :=
  let response := service accountId tokenId
  if response ≠ HederaResponseCodes.SUCCESS then
    .error "Token association failed"
  else
    .ok response

/-- `transferToken` of `BiodiversityLandParcel.sol` (lines 161-171): call the
token service, then `revert("Token transfer failed")` unless the response is
`HederaResponseCodes.SUCCESS`; otherwise return the response. -/
def transferToken (service : Address → Address → Address → Int → Int)
    (tokenId : Address) (fromAccountId : Address) (toAccountId : Address)
    (amount : Int) : Except String Int :=
  let response := service tokenId fromAccountId toAccountId amount
  if response ≠ HederaResponseCodes.SUCCESS then
    .error "Token transfer failed"
  else
    .ok response

/-! The defensive adapter of `HederaTokenService.sol`. The low-level
`precompileAddress().call(...)` is modelled by a function returning
`Option Int`: `none` when the call fails to complete (`success = false`),
`some c` when it completes and its result decodes to `c`. -/

namespace HederaTokenService

/-- `HederaTokenService.associateToken` (lines 16-26): if the low-level call
succeeds, return the decoded response code, else return
`HederaResponseCodes.INVALID_TRANSACTION`. -/
def associateToken (call : Address → Address → Option Int) (account : Address)
    (token : Address) : Int :=
  match call account token with
  | some result => result
  | none => HederaResponseCodes.INVALID_TRANSACTION

/-- `HederaTokenService.transferToken` (lines 35-46): if the low-level call
succeeds, return the decoded response code, else return
`HederaResponseCodes.INVALID_TRANSACTION`. -/
def transferToken (call : Address → Address → Address → Int → Option Int)
    (token : Address) (fromAccount : Address) (toAccount : Address)
    (amount : Int) : Int :=
  match call token fromAccount toAccount amount with
  | some result => result
  | none => HederaResponseCodes.INVALID_TRANSACTION

end HederaTokenService

/-- One state-changing operation on the registry, with the platform-supplied
environment (`msg.sender`, `block.timestamp`) made explicit for `verify`. -/
inductive Op where
  | add (tokenId : Address) (score : Nat) (eco : String)
  | verify (tokenId : Address) (sender : Address) (timestamp : Nat)
deriving DecidableEq, Repr

/-- Transaction semantics of one operation: a reverted call leaves the
storage exactly as it was. -/
def step (s : Store) : Op → Store
  | .add tokenId score eco =>
      match addBiodiversityData s tokenId score eco with
      | .ok s2 => s2
      | .error _ => s
  | .verify tokenId sender timestamp =>
      match verifyBiodiversityData s tokenId sender timestamp with
      | .ok s2 => s2
      | .error _ => s

/-- Storage reached by running a sequence of operations from the
post-constructor storage. -/
def run (ops : List Op) : Store :=
  ops.foldl step initialStore

/-- Platform guarantee on the environment of a transaction: on chain,
`block.timestamp` is a positive Unix time and `msg.sender` is never the null
address. -/
def envOk : Op → Bool
  | .add _ _ _ => true
  | .verify _ sender timestamp => sender != 0 && timestamp > 0

/-- The record invariant of the spec data model:
`isVerified ⇔ verificationTimestamp > 0 ∧ verifier ≠ null`. -/
def recordInvariant (r : BiodiversityData) : Prop :=
  r.isVerified = true ↔ (r.verificationTimestamp > 0 ∧ r.verifier ≠ 0)

instance (r : BiodiversityData) : Decidable (recordInvariant r) := by
  unfold recordInvariant
  infer_instance

lemma step_add_of_le (s : Store) (tokenId : Address) (score : Nat) (eco : String)
    (h : score ≤ 100) :
    step s (.add tokenId score eco) = fun k =>
      if k = tokenId then
        { biodiversityScore := score, ecosystemType := eco,
          verificationTimestamp := 0, verifier := 0, isVerified := false }
      else s k := by
  simp [step, addBiodiversityData, h]

lemma step_add_of_gt (s : Store) (tokenId : Address) (score : Nat) (eco : String)
    (h : ¬ score ≤ 100) :
    step s (.add tokenId score eco) = s := by
  simp [step, addBiodiversityData, h]

lemma step_verify_of_pos (s : Store) (tokenId : Address) (sender : Address)
    (timestamp : Nat) (h : (s tokenId).biodiversityScore > 0) :
    step s (.verify tokenId sender timestamp) = fun k =>
      if k = tokenId then
        { s tokenId with
            isVerified := true
            verificationTimestamp := timestamp
            verifier := sender }
      else s k := by
  simp [step, verifyBiodiversityData, h]

lemma step_verify_of_zero (s : Store) (tokenId : Address) (sender : Address)
    (timestamp : Nat) (h : ¬ (s tokenId).biodiversityScore > 0) :
    step s (.verify tokenId sender timestamp) = s := by
  simp [step, verifyBiodiversityData, h]

lemma stepPreservesInvariant (s : Store) (op : Op) (henv : envOk op = true)
    (hs : ∀ q, recordInvariant (s q)) (k : Address) :
    recordInvariant (step s op k) := by
  cases op with
  | add tokenId score eco =>
      by_cases h : score ≤ 100
      · rw [step_add_of_le s tokenId score eco h]
        by_cases hk : k = tokenId
        · simp [hk, recordInvariant]
        · simpa [hk] using hs k
      · rw [step_add_of_gt s tokenId score eco h]
        exact hs k
  | verify tokenId sender timestamp =>
      simp only [envOk, Bool.and_eq_true, bne_iff_ne, ne_eq, decide_eq_true_eq] at henv
      by_cases h : (s tokenId).biodiversityScore > 0
      · rw [step_verify_of_pos s tokenId sender timestamp h]
        by_cases hk : k = tokenId
        · simp [hk, recordInvariant]
          exact ⟨henv.2, henv.1⟩
        · simpa [hk] using hs k
      · rw [step_verify_of_zero s tokenId sender timestamp h]
        exact hs k

lemma foldlPreservesInvariant (ops : List Op) :
    ∀ s : Store, (∀ op ∈ ops, envOk op = true) → (∀ q, recordInvariant (s q)) →
      ∀ q, recordInvariant ((ops.foldl step s) q) := by
  induction ops with
  | nil =>
      intro s _ hs q
      simpa using hs q
  | cons op rest ih =>
      intro s h hs q
      simp only [List.foldl_cons]
      refine ih (step s op) (fun o ho => h o (by simp [ho])) ?_ q
      intro q2
      exact stepPreservesInvariant s op (h op (by simp)) hs q2

lemma add_eq_ok_step (s : Store) (tokenId : Address) (score : Nat) (eco : String)
    (h : score ≤ 100) :
    addBiodiversityData s tokenId score eco = .ok (step s (.add tokenId score eco)) := by
  simp [addBiodiversityData, step, h]

lemma step_add_self (s : Store) (tokenId : Address) (score : Nat) (eco : String)
    (h : score ≤ 100) :
    step s (.add tokenId score eco) tokenId =
      { biodiversityScore := score, ecosystemType := eco,
        verificationTimestamp := 0, verifier := 0, isVerified := false } := by
  rw [step_add_of_le s tokenId score eco h]
  simp

lemma step_add_other (s : Store) (tokenId : Address) (score : Nat) (eco : String)
    (k : Address) (hk : k ≠ tokenId) :
    step s (.add tokenId score eco) k = s k := by
  by_cases h : score ≤ 100
  · rw [step_add_of_le s tokenId score eco h]
    simp [hk]
  · rw [step_add_of_gt s tokenId score eco h]

lemma verify_eq_ok_step (s : Store) (tokenId : Address) (sender : Address)
    (timestamp : Nat) (h : (s tokenId).biodiversityScore > 0) :
    verifyBiodiversityData s tokenId sender timestamp =
      .ok (step s (.verify tokenId sender timestamp)) := by
  simp [verifyBiodiversityData, step, h]

lemma step_verify_self (s : Store) (tokenId : Address) (sender : Address)
    (timestamp : Nat) (h : (s tokenId).biodiversityScore > 0) :
    step s (.verify tokenId sender timestamp) tokenId =
      { s tokenId with
          isVerified := true
          verificationTimestamp := timestamp
          verifier := sender } := by
  rw [step_verify_of_pos s tokenId sender timestamp h]
  simp

lemma step_verify_other (s : Store) (tokenId : Address) (sender : Address)
    (timestamp : Nat) (k : Address) (hk : k ≠ tokenId) :
    step s (.verify tokenId sender timestamp) k = s k := by
  by_cases h : (s tokenId).biodiversityScore > 0
  · rw [step_verify_of_pos s tokenId sender timestamp h]
    simp [hk]
  · rw [step_verify_of_zero s tokenId sender timestamp h]

/-- C1: for every score in [0,100], every ecosystemType and every identifier,
`addBiodiversityData` succeeds, and an immediately following
`getBiodiversityData` on that identifier returns the fresh record with the
given score and ecosystem, `isVerified = false`, `verificationTimestamp = 0`
and a null verifier, regardless of what was stored before. -/
theorem add_then_get_returns_fresh_record (s : Store) (tokenId : Address)
    (score : Nat) (eco : String) (h : score ≤ 100) :
    ∃ s2, addBiodiversityData s tokenId score eco = .ok s2 ∧
      (getBiodiversityData s2 tokenId).1 =
        { biodiversityScore := score, ecosystemType := eco,
          verificationTimestamp := 0, verifier := 0, isVerified := false } := by
  refine ⟨step s (.add tokenId score eco), add_eq_ok_step s tokenId score eco h, ?_⟩
  simpa [getBiodiversityData] using step_add_self s tokenId score eco h

theorem add_then_get_returns_fresh_record_witness :
    (42 : Nat) ≤ 100 ∧
    ∃ s2, addBiodiversityData initialStore 7 42 "wetland" = .ok s2 ∧
      (getBiodiversityData s2 7).1 =
        { biodiversityScore := 42, ecosystemType := "wetland",
          verificationTimestamp := 0, verifier := 0, isVerified := false } :=
  ⟨by decide, add_then_get_returns_fresh_record initialStore 7 42 "wetland" (by decide)⟩

/-- C2: after `addBiodiversityData(P, 75, "Tropical Rainforest")` followed by
`verifyBiodiversityData(P)` invoked by actor `A` at time `T`, both calls
succeed and `getBiodiversityData(P)` returns exactly the record with score 75,
ecosystem "Tropical Rainforest", `isVerified = true`, timestamp `T` and
verifier `A`: the verification transition preserves score and ecosystem. -/
theorem verify_after_add_stamps_record (s : Store) (p : Address) (A : Address)
    (T : Nat) :
    ∃ s1 s2, addBiodiversityData s p 75 "Tropical Rainforest" = .ok s1 ∧
      verifyBiodiversityData s1 p A T = .ok s2 ∧
      (getBiodiversityData s2 p).1 =
        { biodiversityScore := 75, ecosystemType := "Tropical Rainforest",
          verificationTimestamp := T, verifier := A, isVerified := true } := by
  have h75 : (75 : Nat) ≤ 100 := by omega
  have hself := step_add_self s p 75 "Tropical Rainforest" h75
  have hpos : (step s (.add p 75 "Tropical Rainforest") p).biodiversityScore > 0 := by
    rw [hself]
    decide
  refine ⟨step s (.add p 75 "Tropical Rainforest"),
    step (step s (.add p 75 "Tropical Rainforest")) (.verify p A T),
    add_eq_ok_step s p 75 "Tropical Rainforest" h75,
    verify_eq_ok_step _ p A T hpos, ?_⟩
  rw [getBiodiversityData]
  simp only [step_verify_self _ p A T hpos, hself]

/-- C3: `verifyBiodiversityData` fails, with the not-found revert message, if
and only if the stored record's score is 0 (covering never-written identifiers
and ones written with score 0), and a failing call leaves the store
unchanged. -/
theorem verify_fails_iff_score_zero (s : Store) (tokenId : Address)
    (sender : Address) (timestamp : Nat) :
    (verifyBiodiversityData s tokenId sender timestamp =
        .error "No biodiversity data exists for this token" ↔
      (s tokenId).biodiversityScore = 0) ∧
    ((s tokenId).biodiversityScore = 0 →
      step s (.verify tokenId sender timestamp) = s) := by
  constructor
  · constructor
    · intro h
      by_contra hscore
      have hpos : (s tokenId).biodiversityScore > 0 := Nat.pos_of_ne_zero hscore
      simp [verifyBiodiversityData, hpos] at h
    · intro h
      simp [verifyBiodiversityData, h]
  · intro h
    exact step_verify_of_zero s tokenId sender timestamp (by simp [h])

theorem verify_fails_iff_score_zero_witness :
    verifyBiodiversityData initialStore 5 1 10 =
      .error "No biodiversity data exists for this token" ∧
    step initialStore (.verify 5 1 10) = initialStore :=
  ⟨(verify_fails_iff_score_zero initialStore 5 1 10).1.mpr rfl,
   (verify_fails_iff_score_zero initialStore 5 1 10).2 rfl⟩

/-- C4: for every score strictly greater than 100, `addBiodiversityData`
fails with the validation revert message and the store is left unchanged:
whatever was stored (or not) under any identifier stays exactly as it was. -/
theorem add_rejects_score_above_100 (s : Store) (tokenId : Address)
    (score : Nat) (eco : String) (h : score > 100) :
    addBiodiversityData s tokenId score eco =
      .error "Biodiversity score must be 0-100" ∧
    step s (.add tokenId score eco) = s := by
  have h2 : ¬ score ≤ 100 := by omega
  exact ⟨by simp [addBiodiversityData, h2], step_add_of_gt s tokenId score eco h2⟩

theorem add_rejects_score_above_100_witness :
    addBiodiversityData initialStore 3 101 "forest" =
      .error "Biodiversity score must be 0-100" ∧
    step initialStore (.add 3 101 "forest") = initialStore :=
  add_rejects_score_above_100 initialStore 3 101 "forest" (by decide)

/-- C5 refuted as stated: when the service returns a non-success code, the
operation reverts with a fixed message that does not carry the service's
code — two distinct service codes (173 and 15) produce identical failure
values, so the raised value cannot equal the code the service returned. -/
theorem token_ops_failure_drops_service_code :
    associateToken (fun _ _ => 173) 1 2 = .error "Token association failed" ∧
    associateToken (fun _ _ => 15) 1 2 = .error "Token association failed" ∧
    associateToken (fun _ _ => 173) 1 2 = associateToken (fun _ _ => 15) 1 2 ∧
    (173 : Int) ≠ 15 ∧
    transferToken (fun _ _ _ _ => 173) 1 2 3 1 =
      transferToken (fun _ _ _ _ => 15) 1 2 3 1 := by
  refine ⟨rfl, rfl, rfl, by decide, rfl⟩

/-- C5 (amended): when the external service returns the SUCCESS code (22),
`associateToken`/`transferToken` return SUCCESS with no error; when the
service returns any other code, the operation fails by reverting with a
fixed message ("Token association failed" / "Token transfer failed") that
does not propagate the service's code, with no partial effects (the revert
undoes the whole call). -/
theorem token_ops_succeed_iff_service_success
    (svcA : Address → Address → Int)
    (svcT : Address → Address → Address → Int → Int)
    (accountId tokenId fromAccountId toAccountId : Address) (amount : Int) :
    (svcA accountId tokenId = HederaResponseCodes.SUCCESS →
      associateToken svcA accountId tokenId = .ok HederaResponseCodes.SUCCESS) ∧
    (svcA accountId tokenId ≠ HederaResponseCodes.SUCCESS →
      associateToken svcA accountId tokenId = .error "Token association failed") ∧
    (svcT tokenId fromAccountId toAccountId amount = HederaResponseCodes.SUCCESS →
      transferToken svcT tokenId fromAccountId toAccountId amount =
        .ok HederaResponseCodes.SUCCESS) ∧
    (svcT tokenId fromAccountId toAccountId amount ≠ HederaResponseCodes.SUCCESS →
      transferToken svcT tokenId fromAccountId toAccountId amount =
        .error "Token transfer failed") := by
  refine ⟨?_, ?_, ?_, ?_⟩ <;> intro h <;>
    simp [associateToken, transferToken, h]

theorem token_ops_succeed_iff_service_success_witness :
    associateToken (fun _ _ => 22) 1 2 = .ok HederaResponseCodes.SUCCESS ∧
    associateToken (fun _ _ => 7) 1 2 = .error "Token association failed" ∧
    transferToken (fun _ _ _ _ => 22) 1 2 3 1 = .ok HederaResponseCodes.SUCCESS ∧
    transferToken (fun _ _ _ _ => 174) 1 2 3 1 = .error "Token transfer failed" :=
  ⟨(token_ops_succeed_iff_service_success (fun _ _ => 22) (fun _ _ _ _ => 22)
      1 2 2 3 1).1 (by decide),
   (token_ops_succeed_iff_service_success (fun _ _ => 7) (fun _ _ _ _ => 7)
      1 2 2 3 1).2.1 (by decide),
   (token_ops_succeed_iff_service_success (fun _ _ => 22) (fun _ _ _ _ => 22)
      1 2 2 3 1).2.2.1 (by decide),
   (token_ops_succeed_iff_service_success (fun _ _ => 174) (fun _ _ _ _ => 174)
      1 2 2 3 1).2.2.2 (by decide)⟩

/-- C6: in the defensive adapter, for every input, a transport-level failure
of the external call (`none`) yields the fixed INVALID_TRANSACTION response
code (7), and a completed call yields exactly the decoded response code. -/
theorem defensive_adapter_normalizes_transport_failure
    (callA : Address → Address → Option Int)
    (callT : Address → Address → Address → Int → Option Int)
    (account token fromAccount toAccount : Address) (amount : Int) :
    (callA account token = none →
      HederaTokenService.associateToken callA account token =
        HederaResponseCodes.INVALID_TRANSACTION) ∧
    (∀ c, callA account token = some c →
      HederaTokenService.associateToken callA account token = c) ∧
    (callT token fromAccount toAccount amount = none →
      HederaTokenService.transferToken callT token fromAccount toAccount amount =
        HederaResponseCodes.INVALID_TRANSACTION) ∧
    (∀ c, callT token fromAccount toAccount amount = some c →
      HederaTokenService.transferToken callT token fromAccount toAccount amount = c) ∧
    HederaResponseCodes.INVALID_TRANSACTION = 7 := by
  refine ⟨?_, ?_, ?_, ?_, rfl⟩
  · intro h
    simp [HederaTokenService.associateToken, h]
  · intro c h
    simp [HederaTokenService.associateToken, h]
  · intro h
    simp [HederaTokenService.transferToken, h]
  · intro c h
    simp [HederaTokenService.transferToken, h]

theorem defensive_adapter_normalizes_transport_failure_witness :
    HederaTokenService.associateToken (fun _ _ => none) 1 2 = 7 ∧
    HederaTokenService.associateToken (fun _ _ => some 22) 1 2 = 22 ∧
    HederaTokenService.transferToken (fun _ _ _ _ => none) 1 2 3 1 = 7 ∧
    HederaTokenService.transferToken (fun _ _ _ _ => some 173) 1 2 3 1 = 173 :=
  ⟨(defensive_adapter_normalizes_transport_failure (fun _ _ => none)
      (fun _ _ _ _ => none) 1 2 2 3 1).1 rfl,
   (defensive_adapter_normalizes_transport_failure (fun _ _ => some 22)
      (fun _ _ _ _ => some 22) 1 2 2 3 1).2.1 22 rfl,
   (defensive_adapter_normalizes_transport_failure (fun _ _ => none)
      (fun _ _ _ _ => none) 1 2 2 3 1).2.2.1 rfl,
   (defensive_adapter_normalizes_transport_failure (fun _ _ => some 173)
      (fun _ _ _ _ => some 173) 1 2 2 3 1).2.2.2.1 173 rfl⟩

/-- C7: every state reachable by a sequence of add and verify operations
(under the platform guarantee that verification transactions carry a
positive block timestamp and a non-null sender) satisfies, at every key,
the invariant `isVerified ⇔ verificationTimestamp > 0 ∧ verifier ≠ null`. -/
theorem reachable_states_satisfy_record_invariant (ops : List Op)
    (h : ∀ op ∈ ops, envOk op = true) (k : Address) :
    recordInvariant (run ops k) := by
  refine foldlPreservesInvariant ops initialStore h ?_ k
  intro q
  simp [initialStore, BiodiversityData.zero, recordInvariant]

theorem reachable_states_satisfy_record_invariant_witness :
    (∀ op ∈ [Op.add 5 80 "forest", Op.verify 5 3 100], envOk op = true) ∧
    recordInvariant (run [Op.add 5 80 "forest", Op.verify 5 3 100] 5) :=
  ⟨by decide,
   reachable_states_satisfy_record_invariant
     [Op.add 5 80 "forest", Op.verify 5 3 100] (by decide) 5⟩

/-- C8: re-adding data (with a score in [0,100]) for an identifier whose
stored record is already verified succeeds and unconditionally resets the
record to the fresh unverified state: `isVerified = false`,
`verificationTimestamp = 0`, null verifier, no merge of prior fields. -/
theorem re_add_resets_verification (s : Store) (tokenId : Address)
    (score : Nat) (eco : String) (hv : (s tokenId).isVerified = true)
    (h : score ≤ 100) :
    ∃ s2, addBiodiversityData s tokenId score eco = .ok s2 ∧
      s2 tokenId = { biodiversityScore := score, ecosystemType := eco,
                     verificationTimestamp := 0, verifier := 0, isVerified := false } :=
  ⟨step s (.add tokenId score eco), add_eq_ok_step s tokenId score eco h,
   step_add_self s tokenId score eco h⟩

theorem re_add_resets_verification_witness :
    ((run [Op.add 5 50 "forest", Op.verify 5 3 100]) 5).isVerified = true ∧
    ∃ s2, addBiodiversityData (run [Op.add 5 50 "forest", Op.verify 5 3 100])
        5 20 "wetland" = .ok s2 ∧
      s2 5 = { biodiversityScore := 20, ecosystemType := "wetland",
               verificationTimestamp := 0, verifier := 0, isVerified := false } :=
  ⟨by decide,
   re_add_resets_verification (run [Op.add 5 50 "forest", Op.verify 5 3 100])
     5 20 "wetland" (by decide) (by decide)⟩

/-- C9: on a record with positive score, two successive verification calls
with different actors and times both succeed, and the final record carries
the second call's actor and time only, with score and ecosystem unchanged. -/
theorem double_verify_overwrites (s : Store) (tokenId : Address)
    (a1 : Address) (t1 : Nat) (a2 : Address) (t2 : Nat)
    (h : (s tokenId).biodiversityScore > 0) :
    ∃ s1 s2, verifyBiodiversityData s tokenId a1 t1 = .ok s1 ∧
      verifyBiodiversityData s1 tokenId a2 t2 = .ok s2 ∧
      s2 tokenId = { biodiversityScore := (s tokenId).biodiversityScore,
                     ecosystemType := (s tokenId).ecosystemType,
                     verificationTimestamp := t2, verifier := a2, isVerified := true } := by
  have hself1 := step_verify_self s tokenId a1 t1 h
  have hpos1 : (step s (.verify tokenId a1 t1) tokenId).biodiversityScore > 0 := by
    rw [hself1]
    simpa using h
  refine ⟨step s (.verify tokenId a1 t1),
    step (step s (.verify tokenId a1 t1)) (.verify tokenId a2 t2),
    verify_eq_ok_step s tokenId a1 t1 h,
    verify_eq_ok_step _ tokenId a2 t2 hpos1, ?_⟩
  rw [step_verify_self _ tokenId a2 t2 hpos1, hself1]

theorem double_verify_overwrites_witness :
    ((run [Op.add 5 50 "forest"]) 5).biodiversityScore > 0 ∧
    ∃ s1 s2, verifyBiodiversityData (run [Op.add 5 50 "forest"]) 5 3 100 = .ok s1 ∧
      verifyBiodiversityData s1 5 4 200 = .ok s2 ∧
      s2 5 = { biodiversityScore := ((run [Op.add 5 50 "forest"]) 5).biodiversityScore,
               ecosystemType := ((run [Op.add 5 50 "forest"]) 5).ecosystemType,
               verificationTimestamp := 200, verifier := 4, isVerified := true } :=
  ⟨by decide,
   double_verify_overwrites (run [Op.add 5 50 "forest"]) 5 3 100 4 200 (by decide)⟩

/-- C10: each operation touches at most the record keyed by its identifier:
add and verify on key k1 leave the record at any other key k2 unchanged
(whether the call succeeds or reverts), and `getBiodiversityData` returns
the stored record while leaving the whole store exactly as it was. -/
theorem operations_are_local (s : Store) (k1 k2 : Address) (hne : k2 ≠ k1) :
    (∀ score eco, step s (.add k1 score eco) k2 = s k2) ∧
    (∀ a t, step s (.verify k1 a t) k2 = s k2) ∧
    (∀ k, getBiodiversityData s k = (s k, s)) :=
  ⟨fun score eco => step_add_other s k1 score eco k2 hne,
   fun a t => step_verify_other s k1 a t k2 hne,
   fun _ => rfl⟩

theorem operations_are_local_witness :
    step initialStore (.add 1 50 "forest") 2 = initialStore 2 ∧
    step initialStore (.verify 1 3 9) 2 = initialStore 2 ∧
    getBiodiversityData initialStore 2 = (initialStore 2, initialStore) :=
  ⟨(operations_are_local initialStore 1 2 (by decide)).1 50 "forest",
   (operations_are_local initialStore 1 2 (by decide)).2.1 3 9,
   (operations_are_local initialStore 1 2 (by decide)).2.2 2⟩
